import Mathlib

/-!
Verification of the makeVM module (smtLayer/makeVM.py) of the feilong
repository: a shallow embedding of the createVM directory-entry builder,
the getReservedMemSize reserved-memory calculator, the byUsers
post-processing of parseCmdline, and the DIRECTORY keyword grammar table
keyOpsList, together with theorems settling the frozen claims about them.

Python strings are embedded as lists of characters (PyStr).  The string
methods the source uses (split, strip, upper, replace, join, int(), the
percent formatting of integers) are embedded one by one next to the
functions that use them.  Fallible Python code (IndexError from an
out-of-range subscript, ValueError from int()) is embedded with Option:
a None result marks an uncaught Python exception.
-/

/-- A Python string: a list of characters. -/
abbrev PyStr := List Char

/-- Notation helper turning a Lean string literal into a PyStr. -/
def S (s : String) : PyStr := s.toList

/-- The whitespace characters stripped by the Python method str.strip
and split on by str.split() (ASCII subset, which is all the source
feeds to them). -/
def isPySpace (c : Char) : Bool :=
  c = ' ' ∨ c = '\t' ∨ c = '\n' ∨ c = '\r' ∨ c = '\x0b' ∨ c = '\x0c'

/-- Python str.strip(): drop whitespace from both ends. -/
def pyStrip (s : PyStr) : PyStr :=
  ((s.dropWhile isPySpace).reverse.dropWhile isPySpace).reverse

/-- Python str.upper() (ASCII subset). -/
def pyUpper (s : PyStr) : PyStr := s.map Char.toUpper

/-- Python s.split(sep) for the one-character separator used by the
source, sep = a colon.  An empty input yields one empty segment, and
separators at the ends yield empty segments, as in Python. -/
def pySplitColon : PyStr → List PyStr
  | [] => [[]]
  | c :: rest =>
    if c = ':' then [] :: pySplitColon rest
    else
      match pySplitColon rest with
      | [] => [[c]]
      | seg :: segs => (c :: seg) :: segs

/-- Python s.split(sep) for the five-character comment sentinel used by
the source. Scans left to right and splits at each non-overlapping
occurrence of the sentinel, as in Python. -/
def pySplitSentinel : PyStr → List PyStr
  | c1 :: c2 :: c3 :: c4 :: c5 :: rest =>
    if c1 = '$' ∧ c2 = '@' ∧ c3 = '$' ∧ c4 = '@' ∧ c5 = '$' then
      [] :: pySplitSentinel rest
    else
      match pySplitSentinel (c2 :: c3 :: c4 :: c5 :: rest) with
      | [] => [[c1]]
      | seg :: segs => (c1 :: seg) :: segs
  | l => [l]

/-- Helper for pySplitWs carrying the reversed current word. -/
def pySplitWsAux (acc : PyStr) : PyStr → List PyStr
  | [] => if acc.isEmpty then [] else [acc.reverse]
  | c :: rest =>
    if isPySpace c then
      if acc.isEmpty then pySplitWsAux [] rest
      else acc.reverse :: pySplitWsAux [] rest
    else pySplitWsAux (c :: acc) rest

/-- Python s.split() with no argument: split on runs of whitespace,
discarding empty segments. -/
def pySplitWs (s : PyStr) : List PyStr := pySplitWsAux [] s

/-- Python s.replace applied to the pattern the source uses,
s.replace with pattern a zero followed by a lowercase x and an empty
replacement: removes every occurrence of that two-character pattern,
scanning left to right, non-overlapping. -/
def removeHex0x : PyStr → PyStr
  | [] => []
  | [c] => [c]
  | c1 :: c2 :: rest =>
    if c1 = '0' ∧ c2 = 'x' then removeHex0x rest
    else c1 :: removeHex0x (c2 :: rest)

/-- Whether the two-character pattern removed by removeHex0x occurs
anywhere in the string. -/
def hasOcc0x : PyStr → Bool
  | [] => false
  | [_] => false
  | c1 :: c2 :: rest =>
    if c1 = '0' ∧ c2 = 'x' then true else hasOcc0x (c2 :: rest)

/-- Decimal value of a digit string (helper for pyInt?). -/
def digitsVal (l : PyStr) : Nat :=
  l.foldl (fun a c => a * 10 + (c.toNat - 48)) 0

/-- Parse of an unsigned decimal digit string (helper for pyInt?). -/
def digitsToNat? (l : PyStr) : Option Nat :=
  if l ≠ [] ∧ l.all Char.isDigit then some (digitsVal l) else none

/-- Python int(s) on the inputs the source can feed it: an optional
sign followed by decimal digits.  None marks a ValueError (Python
also tolerates surrounding whitespace and embedded underscores, which
none of the source call sites rely on and which are not modelled). -/
def pyInt? : PyStr → Option Int
  | [] => none
  | c :: rest =>
    if c = '-' then (digitsToNat? rest).map (fun n => -(n : Int))
    else if c = '+' then (digitsToNat? rest).map (fun n => (n : Int))
    else (digitsToNat? (c :: rest)).map (fun n => (n : Int))

/-- Python percent-i formatting (equivalently str()) of an integer. -/
def intFmt (i : Int) : PyStr :=
  if i < 0 then '-' :: Nat.toDigits 10 i.natAbs else Nat.toDigits 10 i.natAbs

/-- Python percent-0.2X formatting of a non-negative integer: uppercase
hexadecimal, zero-padded to at least two digits. -/
def hex2Fmt (n : Nat) : PyStr :=
  let d := (Nat.toDigits 16 n).map Char.toUpper
  if d.length < 2 then '0' :: d else d

/-- The slice of the request handle the makeVM module reads and writes:
the overall return code of rh.results.  0 means no error recorded. -/
structure RH where
  overallRC : Int
deriving DecidableEq, Repr

/-- Modelled from the spec: rh.updateResults (the request-handle
collaborator, not under src/) records an error result on the handle;
section 7 of the spec says every failure path produces a non-zero
status code on the handle. -/
def updateResults (rh : RH) (code : Int) : RH := { rh with overallRC := code }

/-- Modelled from the spec: the error catalog collaborator msgs (not
under src/).  Section 7 gives the taxonomy; each catalog entry referenced
by makeVM carries a distinct non-zero status code, named here by its
message id.  Entry 0205: UnitFormatError (memory-size suffix is neither
M nor G). -/
def msg0205RC : Int := 205

/-- Modelled from the spec: catalog entry 0206, SizeOrderingError
(maximum memory smaller than primary memory). -/
def msg0206RC : Int := 206

/-- Modelled from the spec: catalog entry 0207, SizeLimitError
(virtual-disk size exceeds the supported ceiling). -/
def msg0207RC : Int := 207

/-- Maximum numbers of blocks of a virtual disk (module constant
MAX_VDISK_BLOCKS of makeVM.py). -/
def MAX_VDISK_BLOCKS : Int := 4194296

/-- makeVM.getReservedMemSize: given the primary and maximum memory
size strings, validate the unit suffixes, normalize both magnitudes to
megabytes, check the ordering, clamp the gap to the configured maximum
(maxStorReserved, an external configuration value passed explicitly),
and format the gap.  Failure paths record an error code on the handle
and still return the default gap string.  None marks a Python exception
(IndexError on an empty string, ValueError from int()).  On the
gigabyte branch the source divides with the Python float division and
percent-i truncation; the branch is only reached with a positive gap,
where that agrees with integer division (up to float precision, which
no realistic memory size reaches). -/
def getReservedMemSize (maxStorReserved : Int) (rh : RH) (mem maxMem : PyStr) :
    Option (RH × PyStr) :=
  match mem.getLast?, maxMem.getLast? with
  | some memLast, some maxMemLast =>
    let memSuffix := memLast.toUpper
    let maxMemSuffix := maxMemLast.toUpper
    if ¬(memSuffix = 'M' ∨ memSuffix = 'G') ∨
        ¬(maxMemSuffix = 'M' ∨ maxMemSuffix = 'G') then
      some (updateResults rh msg0205RC, S "0M")
    else
      match pyInt? mem.dropLast, pyInt? maxMem.dropLast with
      | some memMb0, some maxMemMb0 =>
        let memMb := if memSuffix = 'G' then memMb0 * 1024 else memMb0
        let maxMemMb := if maxMemSuffix = 'G' then maxMemMb0 * 1024 else maxMemMb0
        if maxMemMb < memMb then
          some (updateResults rh msg0206RC, S "0M")
        else
          let gapSize := maxMemMb - memMb
          let gapSize := if gapSize > maxStorReserved then maxStorReserved else gapSize
          if gapSize > 9999999 then
            some (rh, intFmt (gapSize / 1024) ++ S "G")
          else
            some (rh, intFmt gapSize ++ S "M")
      | _, _ => none
  | _, _ => none

example : getReservedMemSize 999999999 ⟨0⟩ (S "1G") (S "2G") = some (⟨0⟩, S "1024M") := by decide
example : getReservedMemSize 999999999 ⟨0⟩ (S "2G") (S "1G") = some (⟨206⟩, S "0M") := by decide
example : getReservedMemSize 999999999 ⟨0⟩ (S "2X") (S "1G") = some (⟨205⟩, S "0M") := by decide
example : getReservedMemSize 999999999 ⟨0⟩ (S "1g") (S "1g") = some (⟨0⟩, S "0M") := by decide
example : getReservedMemSize 4096 ⟨0⟩ (S "1G") (S "100G") = some (⟨0⟩, S "4096M") := by decide
example : getReservedMemSize 99999999999 ⟨0⟩ (S "1M") (S "20000000M") = some (⟨0⟩, S "19531G") := by decide

/-- The typed parameter map rh.parms for the DIRECTORY subfunction, as
built by parseCmdline from the posOpsList and keyOpsList grammar and
its post-processing: the three required positionals plus maxMemSize
(defaulted to priMemSize when absent), and one optional field per
storage key of the keyword table.  cpuCnt and maxCPU are the two
integer-typed values; byUsers has been replaced by the list produced by
the parseCmdline post-processing; setReservedMem and showParms are
arity-0 flags (presence only). -/
structure Parms where
  pw : PyStr
  priMemSize : PyStr
  privClasses : PyStr
  maxMemSize : PyStr
  profName : Option PyStr := none
  maxCPU : Option Int := none
  account : Option PyStr := none
  cpuCnt : Option Int := none
  commandSchedule : Option PyStr := none
  commandSetShare : Option PyStr := none
  commandRDomain : Option PyStr := none
  commandPcif : Option PyStr := none
  ipl : Option PyStr := none
  iplParam : Option PyStr := none
  iplLoadparam : Option PyStr := none
  byUsers : Option (List PyStr) := none
  setReservedMem : Bool := false
  loadportname : Option PyStr := none
  loadlun : Option PyStr := none
  dedicate : Option PyStr := none
  vdisk : Option PyStr := none
  comment : Option PyStr := none
deriving DecidableEq, Repr

/-- Lines contributed by an optional parameter: none contributes no
line (the source guards each block with a key-presence test). -/
def optList {α : Type} (o : Option α) (f : α → List PyStr) : List PyStr :=
  match o with
  | none => []
  | some a => f a

/-- Clause contributed by an optional parameter inside a single line
(used for the IPL line assembly). -/
def optStr {α : Type} (o : Option α) (f : α → PyStr) : PyStr :=
  match o with
  | none => []
  | some a => f a

/-- Outcome of createVM: either the function returned early on a
validation failure (aborted, carrying the updated handle, with no
directory statement submitted), or it reached the submission call with
the finished directory lines (submitted). -/
inductive CreateOutcome where
  | aborted (rh : RH)
  | submitted (rh : RH) (dirLines : List PyStr)
deriving DecidableEq, Repr

/-- The MDISK line format string of createVM:
MDISK (device) FB-512 V-DISK (blocks) MWV. -/
def mdiskLine (dev : PyStr) (blocks : Int) : PyStr :=
  S "MDISK " ++ dev ++ S " FB-512 V-DISK " ++ intFmt blocks ++ S " MWV"

/-- The block-count computation of the vdisk branch of createVM
(makeVM.py lines 196-203), applied to the already stripped and
upper-cased size string: take the last character as the unit, parse the
rest as an integer, and multiply by 2048 for unit M and by 2097152
otherwise (the source treats every non-M unit with the gigabyte
arithmetic).  None marks a Python exception. -/
def vdiskBlocks (sizeUpper : PyStr) : Option Int :=
  match sizeUpper.getLast? with
  | none => none
  | some sizeUnit =>
    match pyInt? sizeUpper.dropLast with
    | none => none
    | some mag => some (if sizeUnit = 'M' then mag * 2048 else mag * 2097152)

/-- The vdisk branch of createVM (makeVM.py lines 194-220): split the
value on the colon, compute the block count from the stripped and
upper-cased size part, reject block counts above 4194304 with catalog
entry 0207 (Sum.inl, createVM then aborts), clamp block counts above
MAX_VDISK_BLOCKS down to MAX_VDISK_BLOCKS, and emit the MDISK line
(Sum.inr). -/
def vdiskStep (vd : PyStr) : Option (Sum Int PyStr) :=
  let v := pySplitColon vd
  match v.get? 0, v.get? 1 with
  | some v0, some v1 =>
    match vdiskBlocks (pyUpper (pyStrip v1)) with
    | none => none
    | some blocks =>
      if blocks > 4194304 then some (Sum.inl msg0207RC)
      else
        let blocks := if blocks > MAX_VDISK_BLOCKS then MAX_VDISK_BLOCKS else blocks
        some (Sum.inr (mdiskLine v0 blocks))
  | _, _ => none

/-- The commandPcif branch of createVM (makeVM.py lines 144-147): the
value is split on the colon and the first two parts fill the
COMMAND ATTACH PCIF line; a value with no colon raises IndexError
(None). -/
def pcifLines (o : Option PyStr) : Option (List PyStr) :=
  match o with
  | none => some []
  | some v =>
    let s := pySplitColon v
    match s.get? 0, s.get? 1 with
    | some s0, some s1 => some [S "COMMAND ATTACH PCIF " ++ s0 ++ S " * AS " ++ s1]
    | _, _ => none

/-- The comment branch of createVM (makeVM.py lines 222-225): the value
is split on the five-character sentinel and each non-empty fragment
becomes an upper-cased comment line. -/
def commentLines (o : Option PyStr) : List PyStr :=
  optList o (fun cmt =>
    ((pySplitSentinel cmt).filter (fun c => ¬ c.isEmpty)).map
      (fun c => S "* " ++ pyUpper c))

/-- The tail of createVM after the reserved-memory block (makeVM.py
lines 180-246): the LOADDEV lines with the 0x removal, the DEDICATE
lines, the vdisk block (whose rejection aborts with the 0207 code
recorded on the handle), the comment lines, and the submission of the
finished directory entry. -/
def createVMTail (rh : RH) (p : Parms) (lines : List PyStr) : Option CreateOutcome :=
  let lines2 := lines
    ++ optList p.loadportname (fun lpn => [S "LOADDEV PORTname " ++ removeHex0x lpn])
    ++ optList p.loadlun (fun ll => [S "LOADDEV LUN " ++ removeHex0x ll])
    ++ optList p.dedicate (fun d =>
        (pySplitWs d).map (fun vdev => S "DEDICATE " ++ vdev ++ S " " ++ vdev))
  match p.vdisk with
  | none => some (CreateOutcome.submitted rh (lines2 ++ commentLines p.comment))
  | some vd =>
    match vdiskStep vd with
    | none => none
    | some (Sum.inl code) => some (CreateOutcome.aborted (updateResults rh code))
    | some (Sum.inr line) =>
      some (CreateOutcome.submitted rh (lines2 ++ [line] ++ commentLines p.comment))

/-- makeVM.createVM: build the directory entry for the virtual machine
in the fixed source order and submit it, or return early on a
validation failure.  maxStorReserved is the external configuration
value consumed by getReservedMemSize (spec section 6), passed
explicitly.  None marks a Python exception. -/
def createVM (maxStorReserved : Int) (rh : RH) (userid : PyStr) (p : Parms) :
    Option CreateOutcome :=
  let part1 := [S "USER " ++ userid ++ S " " ++ p.pw ++ S " " ++ p.priMemSize
        ++ S " " ++ p.maxMemSize ++ S " " ++ p.privClasses]
    ++ optList p.profName (fun prof => [S "INCLUDE " ++ pyUpper prof])
    ++ optList p.maxCPU (fun mc => [S "MACHINE ESA " ++ intFmt mc])
    ++ optList p.account (fun a => [S "ACCOUNT " ++ pyUpper a])
    ++ [S "COMMAND SET VCONFIG MODE LINUX", S "COMMAND DEFINE CPU 00 TYPE IFL"]
    ++ optList p.cpuCnt (fun cnt =>
        (List.range' 1 (cnt - 1).toNat).map
          (fun i => S "COMMAND DEFINE CPU " ++ hex2Fmt i ++ S " TYPE IFL"))
    ++ optList p.commandSchedule (fun v => [S "COMMAND SCHEDULE * WITHIN POOL " ++ v])
    ++ optList p.commandSetShare (fun v => [S "SHARE " ++ v])
    ++ optList p.commandRDomain (fun v => [S "COMMAND SET VMRELOCATE * DOMAIN " ++ v])
  match pcifLines p.commandPcif with
  | none => none
  | some pcif =>
    let part2 := part1 ++ pcif
      ++ optList p.ipl (fun ipl =>
          [S "IPL " ++ ipl ++ S " "
            ++ optStr p.iplParam (fun v => S "PARM " ++ v ++ S " ")
            ++ optStr p.iplLoadparam (fun v => S "LOADPARM " ++ v ++ S " ")])
      ++ optList p.byUsers (fun users => [S "LOGONBY " ++ List.intercalate (S " ") users])
    if p.setReservedMem then
      match getReservedMemSize maxStorReserved rh (pyUpper p.priMemSize)
          (pyUpper p.maxMemSize) with
      | none => none
      | some (rh1, reservedSize) =>
        if rh1.overallRC ≠ 0 then some (CreateOutcome.aborted rh1)
        else createVMTail rh1 p
          (part2 ++ [S "COMMAND DEF STOR RESERVED " ++ reservedSize])
    else createVMTail rh p part2

/-- The byUsers post-processing of makeVM.parseCmdline (lines 361-366):
the scalar byUsers value is split on the colon and the resulting parts,
in order and otherwise unchanged, replace the scalar in the parameter
map. -/
def parseByUsers (raw : PyStr) : List PyStr := pySplitColon raw

/-- The maxMemSize default of makeVM.parseCmdline (lines 368-369): for
the DIRECTORY subfunction, an absent maxMemSize defaults to the
priMemSize value. -/
def defaultMaxMemSize (priMemSize : PyStr) (maxMemSize : Option PyStr) : PyStr :=
  match maxMemSize with
  | none => priMemSize
  | some m => m

/-- The DIRECTORY entry of makeVM.keyOpsList: each recognized option
token mapped to its storage key, value count and value type (1 for int,
2 for string), exactly as in the source table.  Note that the last
entry, the token for the PCI-function attach option, stores under the
key commandSchedule, the same storage key as the scheduling-pool
option. -/
def keyOpsListDirectory : List (PyStr × (PyStr × Nat × Nat)) :=
  [ (S "--cpus", (S "cpuCnt", 1, 1)),
    (S "--ipl", (S "ipl", 1, 2)),
    (S "--logonby", (S "byUsers", 1, 2)),
    (S "--maxMemSize", (S "maxMemSize", 1, 2)),
    (S "--profile", (S "profName", 1, 2)),
    (S "--maxCPU", (S "maxCPU", 1, 1)),
    (S "--setReservedMem", (S "setReservedMem", 0, 0)),
    (S "--showparms", (S "showParms", 0, 0)),
    (S "--iplParam", (S "iplParam", 1, 2)),
    (S "--iplLoadparam", (S "iplLoadparam", 1, 2)),
    (S "--dedicate", (S "dedicate", 1, 2)),
    (S "--loadportname", (S "loadportname", 1, 2)),
    (S "--loadlun", (S "loadlun", 1, 2)),
    (S "--vdisk", (S "vdisk", 1, 2)),
    (S "--account", (S "account", 1, 2)),
    (S "--comment", (S "comment", 1, 2)),
    (S "--commandSchedule", (S "commandSchedule", 1, 2)),
    (S "--commandSetShare", (S "commandSetShare", 1, 2)),
    (S "--commandRelocationDomain", (S "commandRDomain", 1, 2)),
    (S "--commandPcif", (S "commandSchedule", 1, 2)) ]

/-- Modelled from the spec: the storage step of the generic keyword
engine (generalUtils.parseCmdline, not under src/).  Spec section 4.1:
a recognized keyword consumes its following value tokens and stores the
value in the parameter map under the storage key given by the grammar
table.  This models the store for the string-valued arity-1 storage
keys of the DIRECTORY table into the Parms structure (byUsers is
excluded: its stored scalar is replaced by a list in the parseCmdline
post-processing, modelled by parseByUsers). -/
def storeStringOpt (p : Parms) (storageKey : PyStr) (v : PyStr) : Parms :=
  if storageKey = S "ipl" then { p with ipl := some v }
  else if storageKey = S "maxMemSize" then { p with maxMemSize := v }
  else if storageKey = S "profName" then { p with profName := some v }
  else if storageKey = S "iplParam" then { p with iplParam := some v }
  else if storageKey = S "iplLoadparam" then { p with iplLoadparam := some v }
  else if storageKey = S "dedicate" then { p with dedicate := some v }
  else if storageKey = S "loadportname" then { p with loadportname := some v }
  else if storageKey = S "loadlun" then { p with loadlun := some v }
  else if storageKey = S "vdisk" then { p with vdisk := some v }
  else if storageKey = S "account" then { p with account := some v }
  else if storageKey = S "comment" then { p with comment := some v }
  else if storageKey = S "commandSchedule" then { p with commandSchedule := some v }
  else if storageKey = S "commandSetShare" then { p with commandSetShare := some v }
  else if storageKey = S "commandRDomain" then { p with commandRDomain := some v }
  else if storageKey = S "commandPcif" then { p with commandPcif := some v }
  else p

/-- Modelled from the spec: one step of the generic keyword engine
(generalUtils.parseCmdline, not under src/) for a string-valued
one-value option: look the option token up in the DIRECTORY grammar
table and store the following value token under the storage key the
table gives; an unrecognized token is a parse failure (None). -/
def applyStringKeyword (p : Parms) (kw v : PyStr) : Option Parms :=
  match keyOpsListDirectory.lookup kw with
  | none => none
  | some (storageKey, _, _) => some (storeStringOpt p storageKey v)

/-- A parameter map holding only the required positionals (with
maxMemSize defaulted from priMemSize by parseCmdline), used as the
concrete base map of the claim checks. -/
def minimalParms : Parms :=
  { pw := S "PWD", priMemSize := S "2G", privClasses := S "G",
    maxMemSize := defaultMaxMemSize (S "2G") none }

example : createVM 999999999 ⟨0⟩ (S "TSTUSER") minimalParms
    = some (CreateOutcome.submitted ⟨0⟩
        [S "USER TSTUSER PWD 2G 2G G",
         S "COMMAND SET VCONFIG MODE LINUX",
         S "COMMAND DEFINE CPU 00 TYPE IFL"]) := by decide

example : createVM 999999999 ⟨0⟩ (S "TSTUSER")
      { minimalParms with vdisk := some (S "0100:2048M") }
    = some (CreateOutcome.submitted ⟨0⟩
        [S "USER TSTUSER PWD 2G 2G G",
         S "COMMAND SET VCONFIG MODE LINUX",
         S "COMMAND DEFINE CPU 00 TYPE IFL",
         S "MDISK 0100 FB-512 V-DISK 4194296 MWV"]) := by decide

example : createVM 999999999 ⟨0⟩ (S "TSTUSER")
      { minimalParms with vdisk := some (S "0100:2049M") }
    = some (CreateOutcome.aborted ⟨207⟩) := by decide

example : createVM 999999999 ⟨0⟩ (S "TSTUSER")
      { minimalParms with
          cpuCnt := some 4,
          maxCPU := some 8,
          comment := some (S "first$@$@$$@$@$second") }
    = some (CreateOutcome.submitted ⟨0⟩
        [S "USER TSTUSER PWD 2G 2G G",
         S "MACHINE ESA 8",
         S "COMMAND SET VCONFIG MODE LINUX",
         S "COMMAND DEFINE CPU 00 TYPE IFL",
         S "COMMAND DEFINE CPU 01 TYPE IFL",
         S "COMMAND DEFINE CPU 02 TYPE IFL",
         S "COMMAND DEFINE CPU 03 TYPE IFL",
         S "* FIRST",
         S "* SECOND"]) := by decide

example : createVM 999999999 ⟨0⟩ (S "TSTUSER")
      { minimalParms with
          setReservedMem := true,
          maxMemSize := S "4G",
          ipl := some (S "0100"),
          iplParam := some (S "pp"),
          dedicate := some (S "200 300") }
    = some (CreateOutcome.submitted ⟨0⟩
        [S "USER TSTUSER PWD 2G 4G G",
         S "COMMAND SET VCONFIG MODE LINUX",
         S "COMMAND DEFINE CPU 00 TYPE IFL",
         S "IPL 0100 PARM pp ",
         S "COMMAND DEF STOR RESERVED 2048M",
         S "DEDICATE 200 200",
         S "DEDICATE 300 300"]) := by decide

example : createVM 999999999 ⟨0⟩ (S "TSTUSER")
      { minimalParms with
          setReservedMem := true,
          maxMemSize := S "1G" }
    = some (CreateOutcome.aborted ⟨206⟩) := by decide

/-- Shared lemma: the size-ordering failure path of getReservedMemSize.
With valid unit suffixes and parsed magnitudes, a normalized maximum
strictly below the normalized primary records catalog entry 0206 on the
handle and returns the default gap string. -/
theorem getReservedMemSize_ordering_fail (cfg : Int) (rh : RH) (pd md : PyStr)
    (ps ms : Char) (pv mv : Int)
    (hps : ps.toUpper = 'M' ∨ ps.toUpper = 'G')
    (hms : ms.toUpper = 'M' ∨ ms.toUpper = 'G')
    (hpv : pyInt? pd = some pv) (hmv : pyInt? md = some mv)
    (hlt : (if ms.toUpper = 'G' then mv * 1024 else mv) <
        (if ps.toUpper = 'G' then pv * 1024 else pv)) :
    getReservedMemSize cfg rh (pd ++ [ps]) (md ++ [ms])
      = some (updateResults rh msg0206RC, S "0M") := by
  simp only [getReservedMemSize, List.getLast?_concat, List.dropLast_concat, hpv, hmv]
  rw [if_neg (not_or_intro (not_not_intro hps) (not_not_intro hms)), if_pos hlt]

/-- C3: for every pair of memory-size strings with valid M or G unit
suffixes whose megabyte-normalized maximum is strictly smaller than the
normalized primary, getReservedMemSize takes the size-ordering failure
path: it records the non-zero SizeOrderingError catalog code 0206 on the
request handle (and returns the default gap rather than a successful
one). -/
theorem C3_reserved_ordering_error (cfg : Int) (rh : RH) (pd md : PyStr)
    (ps ms : Char) (pv mv : Int)
    (hps : ps.toUpper = 'M' ∨ ps.toUpper = 'G')
    (hms : ms.toUpper = 'M' ∨ ms.toUpper = 'G')
    (hpv : pyInt? pd = some pv) (hmv : pyInt? md = some mv)
    (hlt : (if ms.toUpper = 'G' then mv * 1024 else mv) <
        (if ps.toUpper = 'G' then pv * 1024 else pv)) :
    getReservedMemSize cfg rh (pd ++ [ps]) (md ++ [ms])
      = some (updateResults rh msg0206RC, S "0M") ∧ msg0206RC ≠ 0 :=
  ⟨getReservedMemSize_ordering_fail cfg rh pd md ps ms pv mv hps hms hpv hmv hlt,
    by decide⟩

/-- C3 witness: the concrete instance of the claim, primary 2G and
maximum 1G, through C3_reserved_ordering_error. -/
theorem C3_reserved_ordering_error_witness :
    getReservedMemSize 999999999 ⟨0⟩ (S "2G") (S "1G")
      = some (updateResults ⟨0⟩ msg0206RC, S "0M") ∧ msg0206RC ≠ 0 :=
  C3_reserved_ordering_error 999999999 ⟨0⟩ (S "2") (S "1") 'G' 'G' 2 1
    (by decide) (by decide) (by decide) (by decide) (by decide)

/-- C7: getReservedMemSize is invariant under unit normalization: for
any magnitudes, calling it with gigabyte-suffixed strings and with the
equivalent megabyte-suffixed strings (magnitudes multiplied by 1024)
yields the same result: the same returned gap string and the same
request handle. -/
theorem C7_unit_normalization_invariant (cfg : Int) (rh : RH)
    (pd md pdM mdM : PyStr) (pv mv : Int)
    (hpv : pyInt? pd = some pv) (hmv : pyInt? md = some mv)
    (hpvM : pyInt? pdM = some (pv * 1024)) (hmvM : pyInt? mdM = some (mv * 1024)) :
    getReservedMemSize cfg rh (pd ++ ['G']) (md ++ ['G'])
      = getReservedMemSize cfg rh (pdM ++ ['M']) (mdM ++ ['M']) := by
  simp only [getReservedMemSize, List.getLast?_concat, List.dropLast_concat,
    hpv, hmv, hpvM, hmvM]
  simp

/-- C7 witness: the concrete instance named by the spec, 1G and 2G
against 1024M and 2048M, through C7_unit_normalization_invariant. -/
theorem C7_unit_normalization_invariant_witness :
    getReservedMemSize 999999999 ⟨0⟩ (S "1G") (S "2G")
      = getReservedMemSize 999999999 ⟨0⟩ (S "1024M") (S "2048M") :=
  C7_unit_normalization_invariant 999999999 ⟨0⟩ (S "1") (S "2") (S "1024") (S "2048")
    1 2 (by decide) (by decide) (by decide) (by decide)

/-- C10: on both failure paths of getReservedMemSize (invalid unit
suffix, and maximum below primary) the function records a non-zero
catalog code on the request handle but still returns the default gap
string 0M; and a genuinely successful zero gap returns the very same
string 0M with the handle untouched, so the returned value alone cannot
distinguish failure from a successful zero gap. -/
theorem C10_failure_returns_default_gap :
    (∀ (cfg : Int) (rh : RH) (mem maxMem : PyStr) (cm cx : Char),
        mem.getLast? = some cm → maxMem.getLast? = some cx →
        (¬(cm.toUpper = 'M' ∨ cm.toUpper = 'G') ∨
          ¬(cx.toUpper = 'M' ∨ cx.toUpper = 'G')) →
        getReservedMemSize cfg rh mem maxMem
          = some (updateResults rh msg0205RC, S "0M"))
    ∧ (∀ (cfg : Int) (rh : RH) (pd md : PyStr) (ps ms : Char) (pv mv : Int),
        (ps.toUpper = 'M' ∨ ps.toUpper = 'G') →
        (ms.toUpper = 'M' ∨ ms.toUpper = 'G') →
        pyInt? pd = some pv → pyInt? md = some mv →
        (if ms.toUpper = 'G' then mv * 1024 else mv) <
            (if ps.toUpper = 'G' then pv * 1024 else pv) →
        getReservedMemSize cfg rh (pd ++ [ps]) (md ++ [ms])
          = some (updateResults rh msg0206RC, S "0M"))
    ∧ getReservedMemSize 999999999 ⟨0⟩ (S "1G") (S "1G") = some (⟨0⟩, S "0M")
    ∧ msg0205RC ≠ 0 ∧ msg0206RC ≠ 0 := by
  refine ⟨?_, ?_, by decide, by decide, by decide⟩
  · intro cfg rh mem maxMem cm cx hm hx hbad
    simp only [getReservedMemSize, hm, hx]
    rw [if_pos hbad]
  · intro cfg rh pd md ps ms pv mv hps hms hpv hmv hlt
    exact getReservedMemSize_ordering_fail cfg rh pd md ps ms pv mv hps hms hpv hmv hlt

/-- C10 witness: a concrete invalid-suffix failure, through
C10_failure_returns_default_gap. -/
theorem C10_failure_returns_default_gap_witness :
    getReservedMemSize 0 ⟨0⟩ (S "2X") (S "1G")
      = some (updateResults ⟨0⟩ msg0205RC, S "0M") :=
  C10_failure_returns_default_gap.1 0 ⟨0⟩ (S "2X") (S "1G") 'X' 'G'
    (by decide) (by decide) (by decide)

/-- Shared lemma: the rejection path of the vdisk branch.  A computed
block count above 4194304 makes vdiskStep fail with catalog entry
0207. -/
theorem vdiskStep_reject (vd v0 v1 : PyStr) (blocks : Int)
    (h0 : (pySplitColon vd).get? 0 = some v0)
    (h1 : (pySplitColon vd).get? 1 = some v1)
    (hb : vdiskBlocks (pyUpper (pyStrip v1)) = some blocks)
    (hgt : (4194304 : Int) < blocks) :
    vdiskStep vd = some (Sum.inl msg0207RC) := by
  simp only [vdiskStep, h0, h1, hb]
  rw [if_pos hgt]

/-- Shared lemma: the clamping path of the vdisk branch.  A computed
block count above MAX_VDISK_BLOCKS but not above 4194304 is clamped
down to MAX_VDISK_BLOCKS in the emitted MDISK line. -/
theorem vdiskStep_clamp (vd v0 v1 : PyStr) (blocks : Int)
    (h0 : (pySplitColon vd).get? 0 = some v0)
    (h1 : (pySplitColon vd).get? 1 = some v1)
    (hb : vdiskBlocks (pyUpper (pyStrip v1)) = some blocks)
    (hgt : MAX_VDISK_BLOCKS < blocks) (hle : blocks ≤ 4194304) :
    vdiskStep vd = some (Sum.inr (mdiskLine v0 MAX_VDISK_BLOCKS)) := by
  simp only [vdiskStep, h0, h1, hb]
  rw [if_neg (not_lt.mpr hle), if_pos hgt]

/-- C1: the vdisk block-count computation multiplies the parsed
magnitude by 2048 when the size string ends in M and by 2097152 on the
gigabyte branch, and the upper-casing applied before the unit test
makes the unit case-insensitive; the size 2048M computes exactly
4194304 blocks and the creation succeeds, with the emitted MDISK line
carrying the count clamped to 4194296; the size 2049M computes more
than 4194304 blocks and the creation aborts with the non-zero
SizeLimitError code 0207; and in general every computed count above
4194296 and at most 4194304 is silently clamped to 4194296 in the
emitted MDISK line. -/
theorem C1_vdisk_sizing :
    (∀ (d : PyStr) (mag : Int), pyInt? d = some mag →
        vdiskBlocks (d ++ ['M']) = some (mag * 2048)
          ∧ vdiskBlocks (d ++ ['G']) = some (mag * 2097152))
    ∧ (∀ (su : PyStr), vdiskBlocks (pyUpper (su ++ ['m']))
          = vdiskBlocks (pyUpper su ++ ['M']))
    ∧ (vdiskBlocks (S "2048M") = some 4194304
        ∧ createVM 999999999 ⟨0⟩ (S "TSTUSER")
            { minimalParms with vdisk := some (S "0100:2048M") }
          = some (CreateOutcome.submitted ⟨0⟩
              [S "USER TSTUSER PWD 2G 2G G",
               S "COMMAND SET VCONFIG MODE LINUX",
               S "COMMAND DEFINE CPU 00 TYPE IFL",
               S "MDISK 0100 FB-512 V-DISK 4194296 MWV"]))
    ∧ (vdiskBlocks (S "2049M") = some 4196352
        ∧ (4194304 : Int) < 4196352
        ∧ createVM 999999999 ⟨0⟩ (S "TSTUSER")
            { minimalParms with vdisk := some (S "0100:2049M") }
          = some (CreateOutcome.aborted ⟨msg0207RC⟩)
        ∧ msg0207RC ≠ 0)
    ∧ (∀ (vd v0 v1 : PyStr) (blocks : Int),
        (pySplitColon vd).get? 0 = some v0 →
        (pySplitColon vd).get? 1 = some v1 →
        vdiskBlocks (pyUpper (pyStrip v1)) = some blocks →
        MAX_VDISK_BLOCKS < blocks → blocks ≤ 4194304 →
        vdiskStep vd = some (Sum.inr (mdiskLine v0 MAX_VDISK_BLOCKS))) := by
  refine ⟨?_, ?_, by decide, by decide, ?_⟩
  · intro d mag h
    constructor <;>
      simp [vdiskBlocks, List.getLast?_concat, List.dropLast_concat, h]
  · intro su
    simp [pyUpper, show Char.toUpper 'm' = 'M' from by decide]
  · intro vd v0 v1 blocks h0 h1 hb hgt hle
    exact vdiskStep_clamp vd v0 v1 blocks h0 h1 hb hgt hle

/-- C1 witness: the general block laws instantiated at magnitude 3,
through C1_vdisk_sizing. -/
theorem C1_vdisk_sizing_witness :
    vdiskBlocks (S "3" ++ ['M']) = some (3 * 2048)
      ∧ vdiskBlocks (S "3" ++ ['G']) = some (3 * 2097152) :=
  C1_vdisk_sizing.1 (S "3") 3 (by decide)

/-- C2 counterexample: the claim says every computed block count above
the 4194296 ceiling is silently clamped down rather than causing the
operation to be rejected; but the parameter 0100:2049M computes 4196352
blocks, which is above the ceiling, and createVM rejects the operation
with the SizeLimitError code instead of clamping. -/
theorem C2_vdisk_clamp_counterexample :
    vdiskBlocks (S "2049M") = some 4196352
      ∧ MAX_VDISK_BLOCKS < (4196352 : Int)
      ∧ vdiskStep (S "0100:2049M") = some (Sum.inl msg0207RC)
      ∧ createVM 999999999 ⟨0⟩ (S "TSTUSER")
          { minimalParms with vdisk := some (S "0100:2049M") }
        = some (CreateOutcome.aborted ⟨msg0207RC⟩) := by decide

/-- C2 amended: every emitted MDISK line carries a block count of at
most MAX_VDISK_BLOCKS; a computed block count above MAX_VDISK_BLOCKS is
silently clamped down to it only when the count is at most 4194304,
while a computed count above 4194304 is rejected with the non-zero
SizeLimitError code 0207 instead of being clamped. -/
theorem C2_vdisk_ceiling_amended :
    (∀ (vd line : PyStr), vdiskStep vd = some (Sum.inr line) →
        ∃ dev blocks, blocks ≤ MAX_VDISK_BLOCKS ∧ line = mdiskLine dev blocks)
    ∧ (∀ (vd v0 v1 : PyStr) (blocks : Int),
        (pySplitColon vd).get? 0 = some v0 →
        (pySplitColon vd).get? 1 = some v1 →
        vdiskBlocks (pyUpper (pyStrip v1)) = some blocks →
        (4194304 : Int) < blocks →
        vdiskStep vd = some (Sum.inl msg0207RC) ∧ msg0207RC ≠ 0)
    ∧ (∀ (vd v0 v1 : PyStr) (blocks : Int),
        (pySplitColon vd).get? 0 = some v0 →
        (pySplitColon vd).get? 1 = some v1 →
        vdiskBlocks (pyUpper (pyStrip v1)) = some blocks →
        MAX_VDISK_BLOCKS < blocks → blocks ≤ 4194304 →
        vdiskStep vd = some (Sum.inr (mdiskLine v0 MAX_VDISK_BLOCKS))) := by
  refine ⟨?_, ?_, ?_⟩
  · intro vd line h
    simp only [vdiskStep] at h
    split at h
    case _ v0 v1 h0 h1 =>
      split at h
      · exact absurd h (by simp)
      case _ blocks hb =>
        split at h
        · exact absurd h (by simp)
        · refine ⟨v0, if blocks > MAX_VDISK_BLOCKS then MAX_VDISK_BLOCKS else blocks, ?_, ?_⟩
          · split
            · exact le_refl MAX_VDISK_BLOCKS
            next hnot => exact le_of_not_lt hnot
          · simp only [Option.some_inj] at h
            exact (Sum.inr_injective h).symm
    · exact absurd h (by simp)
  · intro vd v0 v1 blocks h0 h1 hb hgt
    exact ⟨vdiskStep_reject vd v0 v1 blocks h0 h1 hb hgt, by decide⟩
  · intro vd v0 v1 blocks h0 h1 hb hgt hle
    exact vdiskStep_clamp vd v0 v1 blocks h0 h1 hb hgt hle

/-- C2 amended witness: the clamping conjunct instantiated at the
parameter 0100:2048M, through C2_vdisk_ceiling_amended. -/
theorem C2_vdisk_ceiling_amended_witness :
    vdiskStep (S "0100:2048M") = some (Sum.inr (mdiskLine (S "0100") MAX_VDISK_BLOCKS)) :=
  C2_vdisk_ceiling_amended.2.2 (S "0100:2048M") (S "0100") (S "2048M") 4194304
    (by decide) (by decide) (by decide) (by decide) (by decide)

/-- C4: when the reserved-memory flag is set and the Reserved-Memory
Calculator records a failure on the handle, createVM returns
immediately with the updated handle of the calculator: the outcome is
aborted, carrying the non-zero status of the calculator, with no directory
lines built past that point and no statement submitted to the remote
provisioning call. -/
theorem C4_calculator_failure_aborts (cfg : Int) (rh : RH) (userid : PyStr)
    (p : Parms) (pcif : List PyStr) (rh1 : RH) (gap : PyStr)
    (hpc : pcifLines p.commandPcif = some pcif)
    (hres : p.setReservedMem = true)
    (hcalc : getReservedMemSize cfg rh (pyUpper p.priMemSize) (pyUpper p.maxMemSize)
        = some (rh1, gap))
    (hfail : rh1.overallRC ≠ 0) :
    createVM cfg rh userid p = some (CreateOutcome.aborted rh1) := by
  simp only [createVM, hpc, hres, hcalc, eq_self_iff_true, if_true]
  rw [if_pos hfail]

/-- C4 witness: a concrete size-ordering calculator failure (primary 2G,
maximum 1G) under the reserved-memory flag, through
C4_calculator_failure_aborts. -/
theorem C4_calculator_failure_aborts_witness :
    createVM 999999999 ⟨0⟩ (S "TSTUSER")
        { minimalParms with setReservedMem := true, maxMemSize := S "1G" }
      = some (CreateOutcome.aborted ⟨msg0206RC⟩) :=
  C4_calculator_failure_aborts 999999999 ⟨0⟩ (S "TSTUSER")
    { minimalParms with setReservedMem := true, maxMemSize := S "1G" }
    [] ⟨msg0206RC⟩ (S "0M") (by decide) (by decide) (by decide) (by decide)

/-- C5 counterexample: for a parameter map with only the required keys
(and the defaulted maximum memory), the built directory entry has
exactly 3 lines, not 4 as the claim states. -/
theorem C5_minimal_lines_counterexample :
    createVM 999999999 ⟨0⟩ (S "TSTUSER") minimalParms
      = some (CreateOutcome.submitted ⟨0⟩
          [S "USER TSTUSER PWD 2G 2G G",
           S "COMMAND SET VCONFIG MODE LINUX",
           S "COMMAND DEFINE CPU 00 TYPE IFL"])
      ∧ ([S "USER TSTUSER PWD 2G 2G G",
          S "COMMAND SET VCONFIG MODE LINUX",
          S "COMMAND DEFINE CPU 00 TYPE IFL"] : List PyStr).length ≠ 4 := by decide

/-- C5 amended: for every parameter map containing only the required
keys (password, primary memory size, privilege classes, plus the
defaulted maximum memory size), createVM builds a directory entry of
exactly 3 lines in fixed order: the USER identity line, the
virtual-console-mode line and the first-CPU-definition line, with no
optional lines present. -/
theorem C5_minimal_build_amended (cfg : Int) (rh : RH) (userid pw pri priv : PyStr) :
    createVM cfg rh userid
        { pw := pw,
          priMemSize := pri,
          privClasses := priv,
          maxMemSize := defaultMaxMemSize pri none }
      = some (CreateOutcome.submitted rh
          [S "USER " ++ userid ++ S " " ++ pw ++ S " " ++ pri ++ S " "
            ++ defaultMaxMemSize pri none ++ S " " ++ priv,
           S "COMMAND SET VCONFIG MODE LINUX",
           S "COMMAND DEFINE CPU 00 TYPE IFL"]) := rfl

/-- C6: the DIRECTORY grammar table stores the PCI-function attach
option under the commandSchedule storage key, so a value supplied on
the command line with the PCI-attach token never reaches the
commandPcif key that createVM reads: the built entry carries a
scheduling-pool line holding the raw colon pair and no PCI-function
attach line at all, contrary to the claim. -/
theorem C6_pcif_grammar_aliasing :
    keyOpsListDirectory.lookup (S "--commandPcif") = some (S "commandSchedule", 1, 2)
      ∧ applyStringKeyword minimalParms (S "--commandPcif") (S "100:PCIFID")
          = some { minimalParms with commandSchedule := some (S "100:PCIFID") }
      ∧ ({ minimalParms with commandSchedule := some (S "100:PCIFID") } : Parms).commandPcif
          = none
      ∧ createVM 999999999 ⟨0⟩ (S "TSTUSER")
          { minimalParms with commandSchedule := some (S "100:PCIFID") }
        = some (CreateOutcome.submitted ⟨0⟩
            [S "USER TSTUSER PWD 2G 2G G",
             S "COMMAND SET VCONFIG MODE LINUX",
             S "COMMAND DEFINE CPU 00 TYPE IFL",
             S "COMMAND SCHEDULE * WITHIN POOL 100:PCIFID"])
      ∧ S "COMMAND ATTACH PCIF 100 * AS PCIFID"
          ∉ [S "USER TSTUSER PWD 2G 2G G",
             S "COMMAND SET VCONFIG MODE LINUX",
             S "COMMAND DEFINE CPU 00 TYPE IFL",
             S "COMMAND SCHEDULE * WITHIN POOL 100:PCIFID"] := by decide

/-- Shared lemma: on a string in which the 0x pattern does not occur,
removeHex0x is the identity. -/
theorem removeHex0x_noOcc (t : PyStr) (h : hasOcc0x t = false) : removeHex0x t = t := by
  induction t with
  | nil => rfl
  | cons c rest ih =>
    cases rest with
    | nil => rfl
    | cons c2 r2 =>
      simp only [removeHex0x, hasOcc0x] at *
      by_cases hc : c = '0' ∧ c2 = 'x'
      · rw [if_pos hc] at h
        exact absurd h (by simp)
      · rw [if_neg hc] at h ⊢
        rw [ih h]

/-- C8 counterexample: the claim says the colon-delimited logon list is
split into trimmed elements joined by a single space; but parseCmdline
keeps the split parts untrimmed, so the value U1: U2 parses to a second
element carrying its leading space and the emitted LOGONBY line holds a
double space, where trimmed elements joined by single spaces would give
the line LOGONBY U1 U2. -/
theorem C8_logonby_counterexample :
    parseByUsers (S "U1: U2") = [S "U1", S " U2"]
      ∧ pyStrip (S " U2") ≠ S " U2"
      ∧ createVM 999999999 ⟨0⟩ (S "TSTUSER")
          { minimalParms with byUsers := some (parseByUsers (S "U1: U2")) }
        = some (CreateOutcome.submitted ⟨0⟩
            [S "USER TSTUSER PWD 2G 2G G",
             S "COMMAND SET VCONFIG MODE LINUX",
             S "COMMAND DEFINE CPU 00 TYPE IFL",
             S "LOGONBY U1  U2"])
      ∧ S "LOGONBY U1  U2" ≠ S "LOGONBY U1 U2" := by decide

/-- C8 amended: a supplied colon-delimited logon list is split by the
parseCmdline post-processing into the raw colon-separated substrings,
with no trimming, and createVM emits a LOGONBY line with exactly those
elements joined by single space separators in original order. -/
theorem C8_logonby_amended (cfg : Int) (rh : RH) (userid pw pri priv raw : PyStr) :
    createVM cfg rh userid
        { pw := pw,
          priMemSize := pri,
          privClasses := priv,
          maxMemSize := defaultMaxMemSize pri none,
          byUsers := some (parseByUsers raw) }
      = some (CreateOutcome.submitted rh
          [S "USER " ++ userid ++ S " " ++ pw ++ S " " ++ pri ++ S " "
            ++ defaultMaxMemSize pri none ++ S " " ++ priv,
           S "COMMAND SET VCONFIG MODE LINUX",
           S "COMMAND DEFINE CPU 00 TYPE IFL",
           S "LOGONBY " ++ List.intercalate (S " ") (parseByUsers raw)]) := rfl

/-- C9 counterexample: the claim says exactly a leading 0x prefix is
stripped and characters elsewhere in the value are unchanged; but the
source removes every occurrence of 0x, so the load-port-name 0x10x2 is
embedded as 12 (and the load LUN 0x30x4 as 34), where a strip of only
the leading prefix would embed 10x2. -/
theorem C9_loaddev_counterexample :
    removeHex0x (S "0x10x2") = S "12"
      ∧ S "12" ≠ S "10x2"
      ∧ createVM 999999999 ⟨0⟩ (S "TSTUSER")
          { minimalParms with
              loadportname := some (S "0x10x2"),
              loadlun := some (S "0x30x4") }
        = some (CreateOutcome.submitted ⟨0⟩
            [S "USER TSTUSER PWD 2G 2G G",
             S "COMMAND SET VCONFIG MODE LINUX",
             S "COMMAND DEFINE CPU 00 TYPE IFL",
             S "LOADDEV PORTname 12",
             S "LOADDEV LUN 34"]) := by decide

/-- C9 amended: before a supplied load-port-name or load LUN is
embedded in its LOADDEV line, every occurrence of the character pair 0x
is removed from the value (left to right, non-overlapping), not only a
leading prefix; when 0x occurs in the value only as the leading prefix,
the removal coincides with the leading-prefix strip the claim
describes. -/
theorem C9_loaddev_amended :
    (∀ (t : PyStr), hasOcc0x t = false → removeHex0x (S "0x" ++ t) = t)
    ∧ (∀ (cfg : Int) (rh : RH) (userid pw pri priv lpn lun : PyStr),
        createVM cfg rh userid
            { pw := pw,
              priMemSize := pri,
              privClasses := priv,
              maxMemSize := defaultMaxMemSize pri none,
              loadportname := some lpn,
              loadlun := some lun }
          = some (CreateOutcome.submitted rh
              [S "USER " ++ userid ++ S " " ++ pw ++ S " " ++ pri ++ S " "
                ++ defaultMaxMemSize pri none ++ S " " ++ priv,
               S "COMMAND SET VCONFIG MODE LINUX",
               S "COMMAND DEFINE CPU 00 TYPE IFL",
               S "LOADDEV PORTname " ++ removeHex0x lpn,
               S "LOADDEV LUN " ++ removeHex0x lun])) := by
  refine ⟨?_, ?_⟩
  · intro t h
    show removeHex0x ('0' :: 'x' :: t) = t
    have hstep : removeHex0x ('0' :: 'x' :: t) = removeHex0x t := by
      simp [removeHex0x]
    rw [hstep]
    exact removeHex0x_noOcc t h
  · intro cfg rh userid pw pri priv lpn lun
    rfl

/-- C9 amended witness: the leading-prefix conjunct instantiated at a
value without any further 0x occurrence, through C9_loaddev_amended. -/
theorem C9_loaddev_amended_witness :
    hasOcc0x (S "1234") = false ∧ removeHex0x (S "0x" ++ S "1234") = S "1234" :=
  ⟨by decide, C9_loaddev_amended.1 (S "1234") (by decide)⟩

/-- C5 amended witness: the amended minimal-build claim evaluated at
concrete required values, through C5_minimal_build_amended. -/
theorem C5_minimal_build_amended_witness :
    createVM 999999999 ⟨0⟩ (S "TSTUSER")
        { pw := S "PWD",
          priMemSize := S "2G",
          privClasses := S "G",
          maxMemSize := defaultMaxMemSize (S "2G") none }
      = some (CreateOutcome.submitted ⟨0⟩
          [S "USER " ++ S "TSTUSER" ++ S " " ++ S "PWD" ++ S " " ++ S "2G" ++ S " "
            ++ defaultMaxMemSize (S "2G") none ++ S " " ++ S "G",
           S "COMMAND SET VCONFIG MODE LINUX",
           S "COMMAND DEFINE CPU 00 TYPE IFL"]) :=
  C5_minimal_build_amended 999999999 ⟨0⟩ (S "TSTUSER") (S "PWD") (S "2G") (S "G")

/-- C8 amended witness: the amended logon-list claim evaluated at the
concrete list value U1:U2, through C8_logonby_amended. -/
theorem C8_logonby_amended_witness :
    createVM 999999999 ⟨0⟩ (S "TSTUSER")
        { pw := S "PWD",
          priMemSize := S "2G",
          privClasses := S "G",
          maxMemSize := defaultMaxMemSize (S "2G") none,
          byUsers := some (parseByUsers (S "U1:U2")) }
      = some (CreateOutcome.submitted ⟨0⟩
          [S "USER " ++ S "TSTUSER" ++ S " " ++ S "PWD" ++ S " " ++ S "2G" ++ S " "
            ++ defaultMaxMemSize (S "2G") none ++ S " " ++ S "G",
           S "COMMAND SET VCONFIG MODE LINUX",
           S "COMMAND DEFINE CPU 00 TYPE IFL",
           S "LOGONBY " ++ List.intercalate (S " ") (parseByUsers (S "U1:U2"))]) :=
  C8_logonby_amended 999999999 ⟨0⟩ (S "TSTUSER") (S "PWD") (S "2G") (S "G") (S "U1:U2")
